import Mathlib

/-!
Shallow embedding of the `lambda-otp` Go program (src/main.go) and proofs
about its Send/Verify handlers.

Modelling conventions:
* Machine integers (`int64` Unix times) are Lean `Int`; the one place the
  source depends on 64-bit behaviour — `strconv.ParseInt(s, 10, 64)` — is
  modelled with an explicit clamp to the int64 range.
* External effects (DynamoDB, SNS/SES, the wall clock, `rand.Intn`) are an
  explicit environment: failure flags for each AWS call, the current Unix
  second, and the value returned by `rand.Intn(1000000)`.
* The DynamoDB `OTP` table is a list of stored items; the `Query` with
  `ScanIndexForward=false, Limit=1` is `lookupLatest`, returning the item
  with the numerically greatest `CreatedAt` among those whose `Identifier`
  matches.
* `json.Unmarshal` into the two request structs is modelled on a small JSON
  value type (`Body.malformed` stands for text that is not valid JSON).
-/

namespace LambdaOTP

/-- Go struct `OTPRequest {Identifier, Method}` (json tags `identifier`, `method`). -/
structure OTPRequest where
  identifier : String
  method : String
deriving DecidableEq, Repr

/-- Go struct `OTPVerifyRequest {Identifier, OTP}` (json tags `identifier`, `otp`). -/
structure OTPVerifyRequest where
  identifier : String
  otp : String
deriving DecidableEq, Repr

/-- `events.APIGatewayProxyResponse` as used by the program: status code, body,
and headers. -/
structure Response where
  statusCode : Nat
  body : String
  headers : List (String × String)
deriving DecidableEq, Repr

/-- Go `createResponse`: fixed Content-Type header. -/
def createResponse (statusCode : Nat) (body : String) : Response :=
  ⟨statusCode, body, [("Content-Type", "application/json")]⟩

/-! ### JSON bodies and `json.Unmarshal` -/

/-- A JSON value (enough structure for the two request types). -/
inductive Json where
  | null
  | str (s : String)
  | num (n : Int)
  | bool (b : Bool)
  | obj (fields : List (String × Json))
  | arr (elems : List Json)

/-- A request body: either text that is not valid JSON, or a JSON value. -/
inductive Body where
  | malformed
  | json (v : Json)

/-- Go `encoding/json` object decoding keeps the last value for a duplicated key. -/
def lastField (fields : List (String × Json)) (key : String) : Option Json :=
  fields.foldl (fun acc f => if f.1 = key then some f.2 else acc) none

/-- Decode a `string` struct field from a JSON object, Go-style: an absent key
or JSON `null` leaves the zero value `""`; a JSON string is taken as-is; any
other JSON type is an unmarshalling error (`none`). -/
def decodeStrField (fields : List (String × Json)) (key : String) : Option String :=
  match lastField fields key with
  | none => some ""
  | some Json.null => some ""
  | some (Json.str s) => some s
  | some _ => none

/-- `json.Unmarshal` of the body into `OTPRequest`.  Top-level `null` is a
successful no-op leaving zero values; a non-object, non-null top level or a
wrongly-typed field is an error. -/
def unmarshalSend : Body → Option OTPRequest
  | Body.malformed => none
  | Body.json Json.null => some ⟨"", ""⟩
  | Body.json (Json.obj fields) =>
    match decodeStrField fields "identifier", decodeStrField fields "method" with
    | some i, some m => some ⟨i, m⟩
    | _, _ => none
  | Body.json _ => none

/-- `json.Unmarshal` of the body into `OTPVerifyRequest`. -/
def unmarshalVerify : Body → Option OTPVerifyRequest
  | Body.malformed => none
  | Body.json Json.null => some ⟨"", ""⟩
  | Body.json (Json.obj fields) =>
    match decodeStrField fields "identifier", decodeStrField fields "otp" with
    | some i, some o => some ⟨i, o⟩
    | _, _ => none
  | Body.json _ => none

/-! ### Decimal formatting (`fmt.Sprintf("%06d", ·)`, `strconv.FormatInt(·, 10)`) -/

/-- The ASCII character of a decimal digit. -/
def digitChar (d : Nat) : Char := Char.ofNat (48 + d)

/-- Most-significant-first decimal digits of `n`, prepended to `acc`.
Structural recursion on `fuel` (any `fuel` with `n < 10 ^ fuel` is enough). -/
def toDecChars : Nat → Nat → List Char → List Char
  | 0, _, acc => acc
  | fuel + 1, n, acc =>
    if n < 10 then digitChar n :: acc
    else toDecChars fuel (n / 10) (digitChar (n % 10) :: acc)

/-- Decimal string of a natural number (`0` prints as `"0"`). -/
def decimalString (n : Nat) : String := ⟨toDecChars (n + 1) n []⟩

/-- `strconv.FormatInt(n, 10)`. -/
def formatInt (n : Int) : String :=
  if n < 0 then "-" ++ decimalString n.natAbs else decimalString n.natAbs

/-- `fmt.Sprintf("%06d", n)` for a nonnegative `n`: the decimal string,
left-padded with `'0'` to width 6 (longer strings are not truncated). -/
def sprintf06d (n : Nat) : String :=
  (⟨List.replicate (6 - (decimalString n).length) '0'⟩ : String) ++ decimalString n

/-- Go `generateOTP`: `fmt.Sprintf("%06d", rand.Intn(1000000))`, with `r`
standing for the value returned by `rand.Intn(1000000)` (so `r < 1000000`). -/
def generateOTP (r : Nat) : String := sprintf06d r

/-! ### `strconv.ParseInt(s, 10, 64)` -/

/-- Accumulate decimal digits most-significant-first; `none` on any non-digit. -/
def parseDigitsAux : List Char → Nat → Option Nat
  | [], acc => some acc
  | c :: rest, acc =>
    if c.isDigit then parseDigitsAux rest (acc * 10 + (c.toNat - 48)) else none

/-- Exact decimal reading of an optionally-signed digit string (`none` on a
syntax error: empty, bare sign, or any non-digit character).  This is also how
DynamoDB orders `N`-typed sort keys (full-precision numeric comparison). -/
def parseDec (s : String) : Option Int :=
  match s.data with
  | [] => none
  | c :: rest =>
    if c = '+' then
      if rest = [] then none else (parseDigitsAux rest 0).map Int.ofNat
    else if c = '-' then
      if rest = [] then none else (parseDigitsAux rest 0).map (fun n => -(n : Int))
    else (parseDigitsAux (c :: rest) 0).map Int.ofNat

def maxInt64 : Int := 9223372036854775807

def minInt64 : Int := -9223372036854775808

/-- `strconv.ParseInt(s, 10, 64)` as (value, ok): on a syntax error the value
is `0`; on range overflow the value is clamped to `maxInt64`/`minInt64`; the
Boolean records `err == nil`. -/
def parseInt64 (s : String) : Int × Bool :=
  match parseDec s with
  | none => (0, false)
  | some v =>
    if v > maxInt64 then (maxInt64, false)
    else if v < minInt64 then (minInt64, false)
    else (v, true)

/-! ### The DynamoDB `OTP` table -/

/-- One item of the `OTP` table: attributes `Identifier` (S), `OTP` (S),
`CreatedAt` (N — held as its string representation, as DynamoDB does). -/
structure StoredItem where
  identifier : String
  otp : String
  createdAtN : String
deriving DecidableEq, Repr

/-- Numeric value of the `CreatedAt` sort key (DynamoDB compares `N` values
numerically; a non-numeric string cannot occur in a real `N` attribute, and is
given value 0 to keep the function total). -/
def createdAtNum (it : StoredItem) : Int := (parseDec it.createdAtN).getD 0

/-- The `Query` of `verifyOTP` (`KeyConditionExpression "Identifier = :id"`,
`ScanIndexForward=false`, `Limit=1`): the matching item with the greatest
`CreatedAt`, or `none` when no item matches. -/
def lookupLatest (store : List StoredItem) (id : String) : Option StoredItem :=
  (store.filter (fun it => it.identifier == id)).foldl
    (fun acc it =>
      match acc with
      | none => some it
      | some best => if createdAtNum best < createdAtNum it then some it else acc)
    none

/-! ### Handlers -/

/-- A notification channel (the two arms of the `switch otpReq.Method`). -/
inductive Channel where
  | sms
  | email
deriving DecidableEq, Repr

/-- The ambient external world of one invocation: the wall clock
(`time.Now().Unix()`), the random draw (`rand.Intn(1000000)`), and whether
each AWS call would fail. -/
structure Env where
  now : Int
  rand : Nat
  putFails : Bool
  queryFails : Bool
  dispatchFails : Bool
deriving DecidableEq, Repr

/-- Result of a `sendOTP` invocation: the HTTP response, the table afterwards,
which channel (if any) a publish/send was attempted on, and whether
`generateOTP` was called. -/
structure SendOutcome where
  response : Response
  store : List StoredItem
  dispatched : Option Channel
  generated : Bool
deriving DecidableEq, Repr

/-- Go `sendOTP`: unmarshal; generate the OTP; `PutItem` the record
`{Identifier, CreatedAt = FormatInt(now), OTP}`; then switch on `Method`
(`"sms"` → SNS publish, `"email"` → SES send, anything else → 400 with the
record already stored). -/
def sendOTP (env : Env) (store : List StoredItem) (b : Body) : SendOutcome :=
  match unmarshalSend b with
  | none => ⟨createResponse 400 "Invalid request body", store, none, false⟩
  | some otpReq =>
    let otp := generateOTP env.rand
    if env.putFails then
      ⟨createResponse 500 "Failed to store OTP", store, none, true⟩
    else
      let store := store ++ [⟨otpReq.identifier, otp, formatInt env.now⟩]
      if otpReq.method = "sms" then
        if env.dispatchFails then
          ⟨createResponse 500 "Failed to send OTP", store, some Channel.sms, true⟩
        else ⟨createResponse 200 "OTP sent successfully", store, some Channel.sms, true⟩
      else if otpReq.method = "email" then
        if env.dispatchFails then
          ⟨createResponse 500 "Failed to send OTP", store, some Channel.email, true⟩
        else ⟨createResponse 200 "OTP sent successfully", store, some Channel.email, true⟩
      else ⟨createResponse 400 "Invalid method", store, none, true⟩

/-- Reduce an integer into the int64 range the way Go's two's-complement
arithmetic does: wraparound modulo 2^64 into [-2^63, 2^63). -/
def wrap64 (n : Int) : Int :=
  (n + 9223372036854775808) % 18446744073709551616 - 9223372036854775808

/-- Go int64 subtraction `a - b`: the mathematical difference wrapped into the
int64 range (the expiry age `time.Now().Unix() - createdAt` is computed this
way). -/
def subInt64 (a b : Int) : Int := wrap64 (a - b)

/-- Go `verifyOTP`: unmarshal; `Query` the newest record for the identifier;
`ParseInt` its `CreatedAt` (error discarded); expiry check `now - createdAt >
300` in wrapping int64 arithmetic; then exact string comparison of the
submitted and stored OTP. -/
def verifyOTP (env : Env) (store : List StoredItem) (b : Body) : Response :=
  match unmarshalVerify b with
  | none => createResponse 400 "Invalid request body"
  | some verifyReq =>
    if env.queryFails then createResponse 500 "Failed to retrieve OTP"
    else
      match lookupLatest store verifyReq.identifier with
      | none => createResponse 400 "No OTP found"
      | some item =>
        let createdAt := (parseInt64 item.createdAtN).1
        if subInt64 env.now createdAt > 300 then createResponse 400 "OTP expired"
        else if verifyReq.otp ≠ item.otp then createResponse 400 "Invalid OTP"
        else createResponse 200 "OTP verified successfully"

/-! ### Sample request bodies used by concrete witnesses -/

/-- A well-formed Send body `{"identifier": id, "method": m}`. -/
def sampleSendBody (id m : String) : Body :=
  Body.json (Json.obj [("identifier", Json.str id), ("method", Json.str m)])

/-- A well-formed Verify body `{"identifier": id, "otp": o}`. -/
def sampleVerifyBody (id o : String) : Body :=
  Body.json (Json.obj [("identifier", Json.str id), ("otp", Json.str o)])

/-! ### Lemmas about decimal printing and parsing -/

lemma digitChar_isDigit {d : Nat} (h : d < 10) : (digitChar d).isDigit = true := by
  interval_cases d <;> decide

lemma digitChar_toNat {d : Nat} (h : d < 10) : (digitChar d).toNat = 48 + d := by
  interval_cases d <;> decide

/-- For `0 < n < 10 ^ fuel`, the fuelled printer produces exactly the decimal
digits of `n` (most significant first), followed by `acc`. -/
lemma toDecChars_eq_digits :
    ∀ (fuel n : Nat) (acc : List Char), 0 < n → n < 10 ^ fuel →
      toDecChars fuel n acc = ((Nat.digits 10 n).map digitChar).reverse ++ acc := by
  intro fuel
  induction fuel with
  | zero => intro n acc hn hlt; omega
  | succ fuel ih =>
    intro n acc hn hlt
    rw [toDecChars]
    rcases Nat.lt_or_ge n 10 with hsmall | hbig
    · rw [if_pos hsmall]
      rw [Nat.digits_def' (by norm_num : 1 < 10) hn]
      have h1 : n % 10 = n := Nat.mod_eq_of_lt hsmall
      have h2 : n / 10 = 0 := Nat.div_eq_of_lt hsmall
      simp [h1, h2]
    · rw [if_neg (by omega)]
      have hdpos : 0 < n / 10 := Nat.div_pos hbig (by norm_num)
      have hdlt : n / 10 < 10 ^ fuel := by
        rw [Nat.div_lt_iff_lt_mul (by norm_num : 0 < 10)]
        calc n < 10 ^ (fuel + 1) := hlt
        _ = 10 ^ fuel * 10 := by ring
      rw [ih (n / 10) (digitChar (n % 10) :: acc) hdpos hdlt]
      rw [Nat.digits_def' (by norm_num : 1 < 10) hn]
      simp

lemma decimalString_zero : decimalString 0 = "0" := rfl

lemma decimalString_eq_digits {n : Nat} (hn : 0 < n) :
    decimalString n = ⟨((Nat.digits 10 n).map digitChar).reverse⟩ := by
  have hfuel : n < 10 ^ (n + 1) :=
    lt_of_lt_of_le (Nat.lt_pow_self (by norm_num) n)
      (Nat.pow_le_pow_right (by norm_num) (Nat.le_succ n))
  rw [decimalString, toDecChars_eq_digits (n + 1) n [] hn hfuel, List.append_nil]

lemma decimalString_ne_nil (n : Nat) : (decimalString n).data ≠ [] := by
  rcases Nat.eq_zero_or_pos n with h | h
  · subst h; decide
  · rw [decimalString_eq_digits h]
    simp [Nat.digits_ne_nil_iff_ne_zero, Nat.pos_iff_ne_zero.mp h]

lemma decimalString_isDigit (n : Nat) :
    ∀ c ∈ (decimalString n).data, c.isDigit = true := by
  rcases Nat.eq_zero_or_pos n with h | h
  · subst h; decide
  · rw [decimalString_eq_digits h]
    intro c hc
    simp only [List.mem_reverse, List.mem_map] at hc
    obtain ⟨d, hd, rfl⟩ := hc
    exact digitChar_isDigit (Nat.digits_lt_base (by norm_num) hd)

lemma decimalString_length_le {n k : Nat} (hk : 0 < k) (h : n < 10 ^ k) :
    (decimalString n).length ≤ k := by
  rcases Nat.eq_zero_or_pos n with h0 | h0
  · subst h0
    simpa [decimalString_zero] using hk
  · rw [decimalString_eq_digits h0]
    show (((Nat.digits 10 n).map digitChar).reverse).length ≤ k
    rw [List.length_reverse, List.length_map]
    have hle : 10 ^ (Nat.digits 10 n).length ≤ 10 * n :=
      Nat.base_pow_length_digits_le 10 n (by norm_num) (Nat.pos_iff_ne_zero.mp h0)
    have hlt : 10 ^ (Nat.digits 10 n).length < 10 ^ (k + 1) := by
      calc 10 ^ (Nat.digits 10 n).length ≤ 10 * n := hle
      _ < 10 * 10 ^ k := by omega
      _ = 10 ^ (k + 1) := by ring
    have := (Nat.pow_lt_pow_iff_right (by norm_num : 1 < 10)).mp hlt
    omega

/-! ### Parsing lemmas -/

lemma parseDigitsAux_append (xs ys : List Char) (acc : Nat) :
    parseDigitsAux (xs ++ ys) acc =
      (parseDigitsAux xs acc).bind (fun a => parseDigitsAux ys a) := by
  induction xs generalizing acc with
  | nil => simp [parseDigitsAux]
  | cons c xs ih =>
    rw [List.cons_append, parseDigitsAux, parseDigitsAux]
    by_cases hc : c.isDigit
    · rw [if_pos hc, if_pos hc, ih]
    · rw [if_neg hc, if_neg hc]; rfl

/-- Reading back a most-significant-first digit-character list. -/
lemma parseDigitsAux_rev_digits :
    ∀ (ds : List Nat) (acc : Nat), (∀ d ∈ ds, d < 10) →
      parseDigitsAux ((ds.map digitChar).reverse) acc =
        some (acc * 10 ^ ds.length + Nat.ofDigits 10 ds) := by
  intro ds
  induction ds with
  | nil => intro acc _; simp [parseDigitsAux, Nat.ofDigits_nil]
  | cons d ds ih =>
    intro acc hall
    have hd : d < 10 := hall d (List.mem_cons_self d ds)
    rw [List.map_cons, List.reverse_cons, parseDigitsAux_append]
    rw [ih acc (fun x hx => hall x (List.mem_cons_of_mem d hx))]
    rw [Option.some_bind]
    rw [parseDigitsAux, if_pos (digitChar_isDigit hd), digitChar_toNat hd]
    rw [parseDigitsAux]
    congr 1
    rw [Nat.ofDigits_cons, List.length_cons]
    have : 48 + d - 48 = d := by omega
    rw [this, pow_succ]
    ring

/-- Printing then reading a natural number is the identity. -/
lemma parseDigitsAux_decimalString (n : Nat) :
    parseDigitsAux (decimalString n).data 0 = some n := by
  rcases Nat.eq_zero_or_pos n with h | h
  · subst h; decide
  · rw [decimalString_eq_digits h]
    show parseDigitsAux (((Nat.digits 10 n).map digitChar).reverse) 0 = some n
    rw [parseDigitsAux_rev_digits (Nat.digits 10 n) 0
      (fun d hd => Nat.digits_lt_base (by norm_num) hd)]
    simp [Nat.ofDigits_digits]

lemma parseDec_of_digits (s : String) (h1 : s.data ≠ [])
    (h2 : ∀ c ∈ s.data, c.isDigit = true) :
    parseDec s = (parseDigitsAux s.data 0).map Int.ofNat := by
  obtain ⟨cs⟩ := s
  cases cs with
  | nil => exact absurd rfl h1
  | cons c rest =>
    have hc : c.isDigit = true := h2 c (List.mem_cons_self c rest)
    have hplus : c ≠ '+' := by intro h; rw [h] at hc; exact absurd hc (by decide)
    have hminus : c ≠ '-' := by intro h; rw [h] at hc; exact absurd hc (by decide)
    show parseDec ⟨c :: rest⟩ = _
    rw [parseDec]
    simp only [if_neg hplus, if_neg hminus]

lemma parseDec_decimalString (n : Nat) :
    parseDec (decimalString n) = some (n : Int) := by
  rw [parseDec_of_digits _ (decimalString_ne_nil n) (decimalString_isDigit n),
    parseDigitsAux_decimalString]
  rfl

/-- `strconv.FormatInt` then `parseDec` is the identity on `Int`. -/
lemma parseDec_formatInt (t : Int) : parseDec (formatInt t) = some t := by
  rw [formatInt]
  by_cases ht : t < 0
  · rw [if_pos ht]
    have hdata : ("-" ++ decimalString t.natAbs).data = '-' :: (decimalString t.natAbs).data := by
      cases hs : decimalString t.natAbs
      rfl
    rw [parseDec, hdata]
    simp only [if_neg (by decide : ¬('-' = '+')), if_pos rfl,
      if_neg (decimalString_ne_nil t.natAbs), parseDigitsAux_decimalString]
    simp only [if_pos trivial, Option.bind_eq_bind, Option.some_bind, Option.map_some',
      Option.pure_def, Option.some.injEq]
    omega
  · rw [if_neg ht, parseDec_decimalString]
    congr 1
    omega

/-- Within the int64 range, `ParseInt` undoes `FormatInt` without error. -/
lemma parseInt64_formatInt {t : Int} (h1 : minInt64 ≤ t) (h2 : t ≤ maxInt64) :
    parseInt64 (formatInt t) = (t, true) := by
  rw [parseInt64, parseDec_formatInt]
  simp only [maxInt64, minInt64] at h1 h2 ⊢
  rw [if_neg (by omega), if_neg (by omega)]

lemma parseDigitsAux_replicate_zero :
    ∀ (k : Nat) (cs : List Char),
      parseDigitsAux (List.replicate k '0' ++ cs) 0 = parseDigitsAux cs 0 := by
  intro k
  induction k with
  | zero => intro cs; rfl
  | succ k ih =>
    intro cs
    rw [List.replicate_succ, List.cons_append, parseDigitsAux,
      if_pos (by decide : ('0' : Char).isDigit = true)]
    simpa using ih cs

/-! ### Wrapping arithmetic lemmas -/

lemma wrap64_eq_self {n : Int} (h1 : minInt64 ≤ n) (h2 : n ≤ maxInt64) :
    wrap64 n = n := by
  simp only [minInt64, maxInt64] at h1 h2
  unfold wrap64
  omega

/-- For differences that fit in int64, the wrapped subtraction is the
mathematical one. -/
lemma subInt64_eq {a b : Int} (h1 : minInt64 ≤ a - b) (h2 : a - b ≤ maxInt64) :
    subInt64 a b = a - b := wrap64_eq_self h1 h2

/-! ### Helper lemmas about the handlers -/

lemma verify_queryFails {env : Env} {store : List StoredItem} {b : Body}
    {req : OTPVerifyRequest} (h : unmarshalVerify b = some req)
    (hq : env.queryFails = true) :
    verifyOTP env store b = createResponse 500 "Failed to retrieve OTP" := by
  simp [verifyOTP, h, hq]

lemma verify_notFound {env : Env} {store : List StoredItem} {b : Body}
    {req : OTPVerifyRequest} (h : unmarshalVerify b = some req)
    (hq : env.queryFails = false) (hl : lookupLatest store req.identifier = none) :
    verifyOTP env store b = createResponse 400 "No OTP found" := by
  simp [verifyOTP, h, hq, hl]

lemma verify_expired {env : Env} {store : List StoredItem} {b : Body}
    {req : OTPVerifyRequest} {item : StoredItem} (h : unmarshalVerify b = some req)
    (hq : env.queryFails = false) (hl : lookupLatest store req.identifier = some item)
    (hx : 300 < subInt64 env.now (parseInt64 item.createdAtN).1) :
    verifyOTP env store b = createResponse 400 "OTP expired" := by
  simp [verifyOTP, h, hq, hl, hx]

lemma verify_mismatch {env : Env} {store : List StoredItem} {b : Body}
    {req : OTPVerifyRequest} {item : StoredItem} (h : unmarshalVerify b = some req)
    (hq : env.queryFails = false) (hl : lookupLatest store req.identifier = some item)
    (hx : subInt64 env.now (parseInt64 item.createdAtN).1 ≤ 300) (hne : req.otp ≠ item.otp) :
    verifyOTP env store b = createResponse 400 "Invalid OTP" := by
  simp [verifyOTP, h, hq, hl, not_lt.mpr hx, hne]

lemma verify_match {env : Env} {store : List StoredItem} {b : Body}
    {req : OTPVerifyRequest} {item : StoredItem} (h : unmarshalVerify b = some req)
    (hq : env.queryFails = false) (hl : lookupLatest store req.identifier = some item)
    (hx : subInt64 env.now (parseInt64 item.createdAtN).1 ≤ 300) (heq : req.otp = item.otp) :
    verifyOTP env store b = createResponse 200 "OTP verified successfully" := by
  simp [verifyOTP, h, hq, hl, not_lt.mpr hx, heq]

/-- When exactly two records exist for `id`, created at `t1 < t2` (in either
storage order), the query returns the `t2` record. -/
lemma lookupLatest_two {id o1 o2 : String} {t1 t2 : Int} (ht : t1 < t2)
    {store : List StoredItem}
    (hstore : store = [⟨id, o1, formatInt t1⟩, ⟨id, o2, formatInt t2⟩] ∨
      store = [⟨id, o2, formatInt t2⟩, ⟨id, o1, formatInt t1⟩]) :
    lookupLatest store id = some ⟨id, o2, formatInt t2⟩ := by
  rcases hstore with rfl | rfl <;>
    simp [lookupLatest, createdAtNum, parseDec_formatInt, ht, not_lt.mpr (le_of_lt ht)]

/-- A Send with a well-formed body, method `"sms"`, and a healthy store and
dispatcher: 200, one record appended, SNS publish attempted. -/
lemma sendOTP_sms_ok {env : Env} {store : List StoredItem} {b : Body} {id : String}
    (h : unmarshalSend b = some ⟨id, "sms"⟩) (hp : env.putFails = false)
    (hd : env.dispatchFails = false) :
    sendOTP env store b = ⟨createResponse 200 "OTP sent successfully",
      store ++ [⟨id, generateOTP env.rand, formatInt env.now⟩], some Channel.sms, true⟩ := by
  simp [sendOTP, h, hp, hd]

/-- A Send with a well-formed body and a method that is neither `"sms"` nor
`"email"`: the record is written, then the `switch` falls to `default`. -/
lemma sendOTP_invalid_method {env : Env} {store : List StoredItem} {b : Body}
    {req : OTPRequest} (h : unmarshalSend b = some req)
    (hm1 : req.method ≠ "sms") (hm2 : req.method ≠ "email")
    (hp : env.putFails = false) :
    sendOTP env store b = ⟨createResponse 400 "Invalid method",
      store ++ [⟨req.identifier, generateOTP env.rand, formatInt env.now⟩], none, true⟩ := by
  simp [sendOTP, h, hp, hm1, hm2]

/-! ### Claim C1 -/

/-- Claim C1 is refuted at this input: the stored `CreatedAt`
`"-9223372036854775809"` parses with a range error to the clamped `minInt64`,
so the record's age at Unix second 400 exceeds 300 under any reading — yet the
int64 subtraction `400 - minInt64` wraps to a negative number, the expiry test
fails, and the matching OTP is answered 200, not 400 `OTP expired`. -/
theorem C1_counterexample :
    parseInt64 "-9223372036854775809" = (minInt64, false) ∧
    (300 : Int) < 400 - minInt64 ∧
    verifyOTP ⟨400, 0, false, false, false⟩
      [⟨"henry", "222222", "-9223372036854775809"⟩]
      (sampleVerifyBody "henry" "222222") = createResponse 200 "OTP verified successfully" ∧
    verifyOTP ⟨400, 0, false, false, false⟩
      [⟨"henry", "222222", "-9223372036854775809"⟩]
      (sampleVerifyBody "henry" "222222") ≠ createResponse 400 "OTP expired" := by
  decide

/-- The five-way decision of the Verify handler, in the claimed order: query
failure, then no record, then expiry — measured as the *wrapped int64*
difference `now - createdAt` exceeding 300, with no condition on the submitted
OTP, so a record expired in that sense answers `OTP expired` even on a match —
then exact string inequality, then success. -/
def VerifyDecision (env : Env) (store : List StoredItem) (b : Body)
    (req : OTPVerifyRequest) : Prop :=
  (env.queryFails = true →
    verifyOTP env store b = createResponse 500 "Failed to retrieve OTP") ∧
  (env.queryFails = false → lookupLatest store req.identifier = none →
    verifyOTP env store b = createResponse 400 "No OTP found") ∧
  (∀ item, env.queryFails = false → lookupLatest store req.identifier = some item →
    300 < subInt64 env.now (parseInt64 item.createdAtN).1 →
    verifyOTP env store b = createResponse 400 "OTP expired") ∧
  (∀ item, env.queryFails = false → lookupLatest store req.identifier = some item →
    subInt64 env.now (parseInt64 item.createdAtN).1 ≤ 300 → req.otp ≠ item.otp →
    verifyOTP env store b = createResponse 400 "Invalid OTP") ∧
  (∀ item, env.queryFails = false → lookupLatest store req.identifier = some item →
    subInt64 env.now (parseInt64 item.createdAtN).1 ≤ 300 → req.otp = item.otp →
    verifyOTP env store b = createResponse 200 "OTP verified successfully")

/-- Claim C1 (amended): for every Verify request with a well-formed body the
handler decides in the fixed order — store lookup failure → 500 `Failed to
retrieve OTP`; no record → 400 `No OTP found`; wrapped int64 difference
`now - createdAt` over 300 → 400 `OTP expired` (regardless of whether the
submitted OTP matches); exact string inequality → 400 `Invalid OTP`; otherwise
200 `OTP verified successfully`.  For in-range differences the wrapped
difference is the record's age; a difference that overflows int64 wraps, which
is how the original expiry clause fails. -/
theorem C1_verify_decision_order (env : Env) (store : List StoredItem) (b : Body)
    (req : OTPVerifyRequest) (h : unmarshalVerify b = some req) :
    VerifyDecision env store b req := by
  refine ⟨fun hq => verify_queryFails h hq,
    fun hq hl => verify_notFound h hq hl,
    fun item hq hl hx => verify_expired h hq hl hx,
    fun item hq hl hx hne => verify_mismatch h hq hl hx hne,
    fun item hq hl hx heq => verify_match h hq hl hx heq⟩

/-- Concrete instantiation of C1 at a well-formed body. -/
theorem C1_verify_decision_order_witness :
    unmarshalVerify (sampleVerifyBody "alice" "123456") = some ⟨"alice", "123456"⟩ ∧
    VerifyDecision ⟨400, 0, false, false, false⟩ [⟨"alice", "123456", "100"⟩]
      (sampleVerifyBody "alice" "123456") ⟨"alice", "123456"⟩ :=
  ⟨rfl, C1_verify_decision_order _ _ _ _ rfl⟩

/-! ### Claim C2 -/

/-- Claim C2 is refuted at this input: the stored `CreatedAt`
`"-9223372036854775810"` clamps to `minInt64`, so at Unix second 500 the
difference `now - createdAt` is at least 301 — yet the int64 subtraction wraps
to a negative number and the program answers 200 on the matching OTP, not 400
`OTP expired`. -/
theorem C2_counterexample :
    parseInt64 "-9223372036854775810" = (minInt64, false) ∧
    301 ≤ (500 : Int) - minInt64 ∧
    verifyOTP ⟨500, 0, false, false, false⟩
      [⟨"iris", "333333", "-9223372036854775810"⟩]
      (sampleVerifyBody "iris" "333333") = createResponse 200 "OTP verified successfully" ∧
    verifyOTP ⟨500, 0, false, false, false⟩
      [⟨"iris", "333333", "-9223372036854775810"⟩]
      (sampleVerifyBody "iris" "333333") ≠ createResponse 400 "OTP expired" := by
  decide

/-- Claim C2 (amended): expiry is strictly-greater-than 300 seconds of wrapped
int64 age: when the int64 difference `now - createdAt` equals exactly 300 the
record is still valid (200 on a match), and at 301 or more the response is 400
`OTP expired`.  For records whose createdAt makes the true difference fit in
int64 — every record the program itself wrote at a sane clock — this is the
ordinary age; a difference that overflows int64 wraps, which is how the
original claim fails. -/
theorem C2_expiry_boundary (env : Env) (store : List StoredItem) (b : Body)
    (req : OTPVerifyRequest) (item : StoredItem)
    (h : unmarshalVerify b = some req) (hq : env.queryFails = false)
    (hl : lookupLatest store req.identifier = some item) :
    (subInt64 env.now (parseInt64 item.createdAtN).1 = 300 → req.otp = item.otp →
      verifyOTP env store b = createResponse 200 "OTP verified successfully") ∧
    (301 ≤ subInt64 env.now (parseInt64 item.createdAtN).1 →
      verifyOTP env store b = createResponse 400 "OTP expired") := by
  constructor
  · intro h300 heq
    exact verify_match h hq hl (by omega) heq
  · intro h301
    exact verify_expired h hq hl (by omega)

/-- Concrete instantiation of C2: a record created at Unix second 100, verified
at second 400 (age exactly 300) with the matching OTP. -/
theorem C2_expiry_boundary_witness :
    unmarshalVerify (sampleVerifyBody "alice" "123456") = some ⟨"alice", "123456"⟩ ∧
    lookupLatest [⟨"alice", "123456", "100"⟩] "alice" = some ⟨"alice", "123456", "100"⟩ ∧
    ((subInt64 (400 : Int) (parseInt64 "100").1 = 300 → "123456" = "123456" →
      verifyOTP ⟨400, 0, false, false, false⟩ [⟨"alice", "123456", "100"⟩]
        (sampleVerifyBody "alice" "123456") = createResponse 200 "OTP verified successfully") ∧
    (301 ≤ subInt64 (400 : Int) (parseInt64 "100").1 →
      verifyOTP ⟨400, 0, false, false, false⟩ [⟨"alice", "123456", "100"⟩]
        (sampleVerifyBody "alice" "123456") = createResponse 400 "OTP expired")) ∧
    verifyOTP ⟨400, 0, false, false, false⟩ [⟨"alice", "123456", "100"⟩]
      (sampleVerifyBody "alice" "123456") = createResponse 200 "OTP verified successfully" :=
  ⟨rfl, rfl,
    C2_expiry_boundary ⟨400, 0, false, false, false⟩ [⟨"alice", "123456", "100"⟩]
      (sampleVerifyBody "alice" "123456") ⟨"alice", "123456"⟩ ⟨"alice", "123456", "100"⟩
      rfl rfl rfl,
    (C2_expiry_boundary ⟨400, 0, false, false, false⟩ [⟨"alice", "123456", "100"⟩]
      (sampleVerifyBody "alice" "123456") ⟨"alice", "123456"⟩ ⟨"alice", "123456", "100"⟩
      rfl rfl rfl).1 (by decide) rfl⟩

/-! ### Claim C3 -/

/-- Claim C3: with two records for the same identifier created at `t1 < t2`
(in either storage order), Verify considers only the `t2` record: the lookup
returns it, and a submitted OTP matching only the `t1` record is rejected. -/
theorem C3_only_newest_checked (id o1 o2 : String) (t1 t2 : Int) (env : Env)
    (b : Body) (store : List StoredItem)
    (hb : unmarshalVerify b = some ⟨id, o1⟩) (hq : env.queryFails = false)
    (h0 : 0 ≤ env.now)
    (ht : t1 < t2) (h2min : minInt64 ≤ t2) (h2max : t2 ≤ maxInt64)
    (hfresh : env.now - t2 ≤ 300) (hne : o1 ≠ o2)
    (hstore : store = [⟨id, o1, formatInt t1⟩, ⟨id, o2, formatInt t2⟩] ∨
      store = [⟨id, o2, formatInt t2⟩, ⟨id, o1, formatInt t1⟩]) :
    lookupLatest store id = some ⟨id, o2, formatInt t2⟩ ∧
    verifyOTP env store b = createResponse 400 "Invalid OTP" := by
  have hlook := lookupLatest_two ht hstore
  refine ⟨hlook, verify_mismatch hb hq hlook ?_ hne⟩
  rw [parseInt64_formatInt h2min h2max]
  show subInt64 env.now t2 ≤ 300
  have hs : subInt64 env.now t2 = env.now - t2 := by
    apply subInt64_eq
    · simp only [minInt64, maxInt64] at h2max ⊢
      omega
    · simp only [maxInt64]
      omega
  rw [hs]
  exact hfresh

/-- Concrete instantiation of C3: records at seconds 1000 and 1010, verified at
second 1100 with the OTP of the older record. -/
theorem C3_only_newest_checked_witness :
    unmarshalVerify (sampleVerifyBody "carol" "000007") = some ⟨"carol", "000007"⟩ ∧
    (lookupLatest [⟨"carol", "000007", formatInt 1000⟩, ⟨"carol", "000008", formatInt 1010⟩]
        "carol" = some ⟨"carol", "000008", formatInt 1010⟩ ∧
      verifyOTP ⟨1100, 0, false, false, false⟩
        [⟨"carol", "000007", formatInt 1000⟩, ⟨"carol", "000008", formatInt 1010⟩]
        (sampleVerifyBody "carol" "000007") = createResponse 400 "Invalid OTP") :=
  ⟨rfl, C3_only_newest_checked "carol" "000007" "000008" 1000 1010
    ⟨1100, 0, false, false, false⟩ (sampleVerifyBody "carol" "000007")
    [⟨"carol", "000007", formatInt 1000⟩, ⟨"carol", "000008", formatInt 1010⟩]
    rfl rfl (by decide) (by decide) (by decide) (by decide) (by decide) (by decide)
    (Or.inl rfl)⟩

/-! ### Claim C4 -/

/-- Claim C4 is refuted at this input: two Sends for `"a"` at seconds 1000 and
1010 draw random values 7 and 8, issuing OTPs `"000007"` then `"000008"`; a
Verify at second 1100 (within 300 s of the first issue) submitting the
earlier-issued `"000007"` is answered 400 `Invalid OTP`, not 200. -/
theorem C4_counterexample :
    (sendOTP ⟨1000, 7, false, false, false⟩ [] (sampleSendBody "a" "sms")).store
      = [⟨"a", "000007", "1000"⟩] ∧
    (sendOTP ⟨1010, 8, false, false, false⟩ [⟨"a", "000007", "1000"⟩]
        (sampleSendBody "a" "sms")).store
      = [⟨"a", "000007", "1000"⟩, ⟨"a", "000008", "1010"⟩] ∧
    verifyOTP ⟨1100, 0, false, false, false⟩
      [⟨"a", "000007", "1000"⟩, ⟨"a", "000008", "1010"⟩]
      (sampleVerifyBody "a" "000007") = createResponse 400 "Invalid OTP" ∧
    verifyOTP ⟨1100, 0, false, false, false⟩
      [⟨"a", "000007", "1000"⟩, ⟨"a", "000008", "1010"⟩]
      (sampleVerifyBody "a" "000007") ≠ createResponse 200 "OTP verified successfully" := by
  decide

/-- Claim C4 (amended): repeated identical Sends each independently generate
and store a new record, and the earlier record persists in the store; but the
earlier-issued OTP becomes unreachable: when the later Send drew a different
OTP, a Verify submitting the earlier OTP — still within its own 300-second
window — is rejected 400 `Invalid OTP`, because lookup takes only the newest
record. -/
theorem C4_newest_shadows_earlier (id : String) (bs bv : Body) (r1 r2 : Nat)
    (t1 t2 : Int) (envV : Env)
    (hbs : unmarshalSend bs = some ⟨id, "sms"⟩)
    (hbv : unmarshalVerify bv = some ⟨id, generateOTP r1⟩)
    (hne : generateOTP r1 ≠ generateOTP r2)
    (ht : t1 < t2) (h2min : minInt64 ≤ t2) (h2max : t2 ≤ maxInt64)
    (hq : envV.queryFails = false) (h0 : 0 ≤ envV.now) (hwin : envV.now - t1 ≤ 300) :
    sendOTP ⟨t1, r1, false, false, false⟩ [] bs =
      ⟨createResponse 200 "OTP sent successfully",
        [⟨id, generateOTP r1, formatInt t1⟩], some Channel.sms, true⟩ ∧
    sendOTP ⟨t2, r2, false, false, false⟩ [⟨id, generateOTP r1, formatInt t1⟩] bs =
      ⟨createResponse 200 "OTP sent successfully",
        [⟨id, generateOTP r1, formatInt t1⟩, ⟨id, generateOTP r2, formatInt t2⟩],
        some Channel.sms, true⟩ ∧
    verifyOTP envV [⟨id, generateOTP r1, formatInt t1⟩, ⟨id, generateOTP r2, formatInt t2⟩]
      bv = createResponse 400 "Invalid OTP" := by
  refine ⟨sendOTP_sms_ok hbs rfl rfl, sendOTP_sms_ok hbs rfl rfl, ?_⟩
  have hlook := @lookupLatest_two id (generateOTP r1) (generateOTP r2) t1 t2 ht
    [⟨id, generateOTP r1, formatInt t1⟩, ⟨id, generateOTP r2, formatInt t2⟩] (Or.inl rfl)
  refine verify_mismatch hbv hq hlook ?_ hne
  rw [parseInt64_formatInt h2min h2max]
  show subInt64 envV.now t2 ≤ 300
  have hs : subInt64 envV.now t2 = envV.now - t2 := by
    apply subInt64_eq
    · simp only [minInt64, maxInt64] at h2max ⊢
      omega
    · simp only [maxInt64]
      omega
  rw [hs]
  omega

/-- Concrete instantiation of the amended C4. -/
theorem C4_newest_shadows_earlier_witness :
    unmarshalSend (sampleSendBody "a" "sms") = some ⟨"a", "sms"⟩ ∧
    unmarshalVerify (sampleVerifyBody "a" (generateOTP 7)) = some ⟨"a", generateOTP 7⟩ ∧
    generateOTP 7 ≠ generateOTP 8 ∧
    (sendOTP ⟨1000, 7, false, false, false⟩ [] (sampleSendBody "a" "sms") =
      ⟨createResponse 200 "OTP sent successfully",
        [⟨"a", generateOTP 7, formatInt 1000⟩], some Channel.sms, true⟩ ∧
    sendOTP ⟨1010, 8, false, false, false⟩ [⟨"a", generateOTP 7, formatInt 1000⟩]
        (sampleSendBody "a" "sms") =
      ⟨createResponse 200 "OTP sent successfully",
        [⟨"a", generateOTP 7, formatInt 1000⟩, ⟨"a", generateOTP 8, formatInt 1010⟩],
        some Channel.sms, true⟩ ∧
    verifyOTP ⟨1100, 0, false, false, false⟩
      [⟨"a", generateOTP 7, formatInt 1000⟩, ⟨"a", generateOTP 8, formatInt 1010⟩]
      (sampleVerifyBody "a" (generateOTP 7)) = createResponse 400 "Invalid OTP") :=
  ⟨rfl, rfl, by decide,
    C4_newest_shadows_earlier "a" (sampleSendBody "a" "sms")
      (sampleVerifyBody "a" (generateOTP 7)) 7 8 1000 1010 ⟨1100, 0, false, false, false⟩
      rfl rfl (by decide) (by decide) (by decide) (by decide) rfl (by decide) (by decide)⟩

/-! ### Claim C5 -/

lemma data_append (s t : String) : (s ++ t).data = s.data ++ t.data := by
  cases s; cases t; rfl

/-- Claim C5: `generateOTP` (on a random draw `r < 1000000`) returns exactly 6
ASCII digits, zero-padded, encoding the drawn value; in particular the draw 7
yields `"000007"`. -/
theorem C5_generateOTP_format (r : Nat) (h : r < 1000000) :
    (generateOTP r).length = 6 ∧
    (∀ c ∈ (generateOTP r).data, c.isDigit = true) ∧
    parseDec (generateOTP r) = some (r : Int) ∧
    generateOTP 7 = "000007" := by
  have hr : r < 10 ^ 6 := by norm_num; exact h
  have hlen : (decimalString r).length ≤ 6 := decimalString_length_le (by norm_num) hr
  have hdata : (generateOTP r).data
      = List.replicate (6 - (decimalString r).length) '0' ++ (decimalString r).data := by
    rw [generateOTP, sprintf06d, data_append]
  have hdig : ∀ c ∈ (generateOTP r).data, c.isDigit = true := by
    rw [hdata]
    intro c hc
    rcases List.mem_append.mp hc with hrep | hdec
    · rw [List.eq_of_mem_replicate hrep]; decide
    · exact decimalString_isDigit r c hdec
  have hne : (generateOTP r).data ≠ [] := by
    rw [hdata]
    intro hnil
    exact decimalString_ne_nil r (List.append_eq_nil.mp hnil).2
  refine ⟨?_, hdig, ?_, by decide⟩
  · show (generateOTP r).data.length = 6
    rw [hdata, List.length_append, List.length_replicate]
    have : (decimalString r).length = (decimalString r).data.length := rfl
    omega
  · rw [parseDec_of_digits _ hne hdig, hdata, parseDigitsAux_replicate_zero,
      parseDigitsAux_decimalString]
    rfl

/-- Concrete instantiation of C5 at the draw 7. -/
theorem C5_generateOTP_format_witness :
    7 < 1000000 ∧
    ((generateOTP 7).length = 6 ∧
    (∀ c ∈ (generateOTP 7).data, c.isDigit = true) ∧
    parseDec (generateOTP 7) = some (7 : Int) ∧
    generateOTP 7 = "000007") :=
  ⟨by decide, C5_generateOTP_format 7 (by decide)⟩

/-! ### Claim C6 -/

/-- Claim C6: a well-formed Send whose method is neither `"sms"` nor `"email"`
answers 400 `Invalid method`, yet the OTP record was already written before the
method check and persists in the store (and no dispatch is attempted). -/
theorem C6_invalid_method_record_persists (env : Env) (store : List StoredItem)
    (b : Body) (req : OTPRequest) (h : unmarshalSend b = some req)
    (hm1 : req.method ≠ "sms") (hm2 : req.method ≠ "email")
    (hp : env.putFails = false) :
    sendOTP env store b = ⟨createResponse 400 "Invalid method",
      store ++ [⟨req.identifier, generateOTP env.rand, formatInt env.now⟩], none, true⟩ :=
  sendOTP_invalid_method h hm1 hm2 hp

/-- Concrete instantiation of C6 with method `"pigeon"`. -/
theorem C6_invalid_method_record_persists_witness :
    unmarshalSend (sampleSendBody "dave" "pigeon") = some ⟨"dave", "pigeon"⟩ ∧
    sendOTP ⟨1000, 7, false, false, false⟩ [] (sampleSendBody "dave" "pigeon") =
      ⟨createResponse 400 "Invalid method",
        [⟨"dave", generateOTP 7, formatInt 1000⟩], none, true⟩ :=
  ⟨rfl, C6_invalid_method_record_persists ⟨1000, 7, false, false, false⟩ []
    (sampleSendBody "dave" "pigeon") ⟨"dave", "pigeon"⟩ rfl (by decide) (by decide) rfl⟩

/-! ### Claim C7 -/

/-- Claim C7: a Send whose body fails to unmarshal answers 400 `Invalid request
body` with no side effects: the store is unchanged, no OTP was generated, and
no dispatch was attempted. -/
theorem C7_malformed_no_side_effects (env : Env) (store : List StoredItem)
    (b : Body) (h : unmarshalSend b = none) :
    sendOTP env store b = ⟨createResponse 400 "Invalid request body", store, none, false⟩ := by
  simp [sendOTP, h]

/-- Concrete instantiation of C7 on a body that is not valid JSON. -/
theorem C7_malformed_no_side_effects_witness :
    unmarshalSend Body.malformed = none ∧
    sendOTP ⟨1000, 7, false, false, false⟩ [⟨"dave", "111111", "50"⟩] Body.malformed =
      ⟨createResponse 400 "Invalid request body", [⟨"dave", "111111", "50"⟩], none, false⟩ :=
  ⟨rfl, C7_malformed_no_side_effects ⟨1000, 7, false, false, false⟩
    [⟨"dave", "111111", "50"⟩] Body.malformed rfl⟩

/-! ### Claim C8 -/

/-- Claim C8: when the store insert fails, Send answers 500 `Failed to store
OTP` and attempts no notification dispatch (the write strictly precedes any
SMS or email send). -/
theorem C8_put_failure_no_dispatch (env : Env) (store : List StoredItem)
    (b : Body) (req : OTPRequest) (h : unmarshalSend b = some req)
    (hp : env.putFails = true) :
    sendOTP env store b = ⟨createResponse 500 "Failed to store OTP", store, none, true⟩ := by
  simp [sendOTP, h, hp]

/-- Concrete instantiation of C8 with a failing `PutItem`. -/
theorem C8_put_failure_no_dispatch_witness :
    unmarshalSend (sampleSendBody "erin" "sms") = some ⟨"erin", "sms"⟩ ∧
    sendOTP ⟨1000, 7, true, false, false⟩ [] (sampleSendBody "erin" "sms") =
      ⟨createResponse 500 "Failed to store OTP", [], none, true⟩ :=
  ⟨rfl, C8_put_failure_no_dispatch ⟨1000, 7, true, false, false⟩ []
    (sampleSendBody "erin" "sms") ⟨"erin", "sms"⟩ rfl rfl⟩

/-! ### Claim C9 -/

/-- Claim C9: the body `"{}"` is valid JSON, so unmarshalling succeeds with
zero-value fields; Send therefore generates an OTP, stores a record whose
identifier is the empty string, and only then answers 400 `Invalid method`
because `""` matches neither `"sms"` nor `"email"`. -/
theorem C9_empty_json_object (env : Env) (store : List StoredItem)
    (hp : env.putFails = false) :
    unmarshalSend (Body.json (Json.obj [])) = some ⟨"", ""⟩ ∧
    sendOTP env store (Body.json (Json.obj [])) = ⟨createResponse 400 "Invalid method",
      store ++ [⟨"", generateOTP env.rand, formatInt env.now⟩], none, true⟩ :=
  ⟨rfl, @sendOTP_invalid_method env store (Body.json (Json.obj [])) ⟨"", ""⟩
    rfl (by decide) (by decide) hp⟩

/-- Concrete instantiation of C9. -/
theorem C9_empty_json_object_witness :
    unmarshalSend (Body.json (Json.obj [])) = some ⟨"", ""⟩ ∧
    sendOTP ⟨1000, 7, false, false, false⟩ [] (Body.json (Json.obj [])) =
      ⟨createResponse 400 "Invalid method",
        [⟨"", generateOTP 7, formatInt 1000⟩], none, true⟩ :=
  C9_empty_json_object ⟨1000, 7, false, false, false⟩ [] rfl

/-! ### Claim C10 -/

/-- Claim C10 is refuted at this input: the stored `CreatedAt` string
`"9223372036854775808"` (2^63) is not a parseable 64-bit integer, yet
`ParseInt` yields the clamped `maxInt64`, not 0 — so at Unix second 400
(which exceeds 300) the record is not reported expired; the matching OTP
verifies with 200. -/
theorem C10_counterexample :
    parseInt64 "9223372036854775808" = (maxInt64, false) ∧
    (300 : Int) < 400 ∧
    verifyOTP ⟨400, 0, false, false, false⟩ [⟨"frank", "111111", "9223372036854775808"⟩]
      (sampleVerifyBody "frank" "111111") = createResponse 200 "OTP verified successfully" ∧
    verifyOTP ⟨400, 0, false, false, false⟩ [⟨"frank", "111111", "9223372036854775808"⟩]
      (sampleVerifyBody "frank" "111111") ≠ createResponse 400 "OTP expired" := by
  decide

/-- Claim C10 (amended): the `ParseInt` error is always discarded, with the
outcome depending on how the parse failed.  A *syntax* error (the stored
`CreatedAt` is not an optionally-signed decimal digit string) defaults
`createdAt` to 0, so whenever the current Unix time exceeds 300 such a record
is reported 400 `OTP expired` rather than surfacing a data error.  A
syntactically valid integer that overflows int64 instead defaults to the
clamped `maxInt64` (positive overflow) or `minInt64` (negative overflow), and
in both cases — at any clock in `[0, maxInt64]` — the record is *not* reported
expired (for `maxInt64` the difference is nonpositive; for `minInt64` the
int64 subtraction wraps to a negative number), so a matching OTP verifies. -/
theorem C10_parse_error_discarded (env : Env) (store : List StoredItem)
    (b : Body) (req : OTPVerifyRequest) (item : StoredItem)
    (h : unmarshalVerify b = some req) (hq : env.queryFails = false)
    (hl : lookupLatest store req.identifier = some item)
    (hnow0 : 0 ≤ env.now) (hnowMax : env.now ≤ maxInt64) :
    (parseDec item.createdAtN = none → 300 < env.now →
      parseInt64 item.createdAtN = (0, false) ∧
      verifyOTP env store b = createResponse 400 "OTP expired") ∧
    (∀ v, parseDec item.createdAtN = some v → maxInt64 < v →
      parseInt64 item.createdAtN = (maxInt64, false) ∧
      (req.otp = item.otp →
        verifyOTP env store b = createResponse 200 "OTP verified successfully")) ∧
    (∀ v, parseDec item.createdAtN = some v → v < minInt64 →
      parseInt64 item.createdAtN = (minInt64, false) ∧
      (req.otp = item.otp →
        verifyOTP env store b = createResponse 200 "OTP verified successfully")) := by
  refine ⟨?_, ?_, ?_⟩
  · intro hsyn hnow
    have hp : parseInt64 item.createdAtN = (0, false) := by rw [parseInt64, hsyn]
    refine ⟨hp, verify_expired h hq hl ?_⟩
    rw [hp]
    show 300 < subInt64 env.now 0
    have hs : subInt64 env.now 0 = env.now - 0 := by
      apply subInt64_eq
      · simp only [minInt64]
        omega
      · simpa using hnowMax
    rw [hs]
    omega
  · intro v hv hbig
    have hp : parseInt64 item.createdAtN = (maxInt64, false) := by
      rw [parseInt64, hv]
      simp only [if_pos hbig]
    refine ⟨hp, fun heq => verify_match h hq hl ?_ heq⟩
    rw [hp]
    show subInt64 env.now maxInt64 ≤ 300
    have hs : subInt64 env.now maxInt64 = env.now - maxInt64 := by
      apply subInt64_eq
      · simp only [minInt64, maxInt64] at hnowMax ⊢
        omega
      · simp only [maxInt64] at hnowMax ⊢
        omega
    rw [hs]
    simp only [maxInt64] at hnowMax ⊢
    omega
  · intro v hv hsmall
    have hnotbig : ¬(maxInt64 < v) := by
      simp only [minInt64, maxInt64] at hsmall ⊢
      omega
    have hp : parseInt64 item.createdAtN = (minInt64, false) := by
      rw [parseInt64, hv]
      simp only [if_neg hnotbig, if_pos hsmall]
    refine ⟨hp, fun heq => verify_match h hq hl ?_ heq⟩
    rw [hp]
    show subInt64 env.now minInt64 ≤ 300
    unfold subInt64 wrap64
    simp only [minInt64, maxInt64] at hnow0 hnowMax ⊢
    omega

/-- Concrete instantiation of the amended C10: `CreatedAt` is `"oops"`, a
syntax error, at Unix second 400. -/
theorem C10_parse_error_discarded_witness :
    unmarshalVerify (sampleVerifyBody "gina" "111111") = some ⟨"gina", "111111"⟩ ∧
    lookupLatest [⟨"gina", "111111", "oops"⟩] "gina" = some ⟨"gina", "111111", "oops"⟩ ∧
    ((parseDec "oops" = none → (300 : Int) < 400 →
      parseInt64 "oops" = (0, false) ∧
      verifyOTP ⟨400, 0, false, false, false⟩ [⟨"gina", "111111", "oops"⟩]
        (sampleVerifyBody "gina" "111111") = createResponse 400 "OTP expired") ∧
    (∀ v, parseDec "oops" = some v → maxInt64 < v →
      parseInt64 "oops" = (maxInt64, false) ∧
      ("111111" = "111111" →
        verifyOTP ⟨400, 0, false, false, false⟩ [⟨"gina", "111111", "oops"⟩]
          (sampleVerifyBody "gina" "111111") = createResponse 200 "OTP verified successfully")) ∧
    (∀ v, parseDec "oops" = some v → v < minInt64 →
      parseInt64 "oops" = (minInt64, false) ∧
      ("111111" = "111111" →
        verifyOTP ⟨400, 0, false, false, false⟩ [⟨"gina", "111111", "oops"⟩]
          (sampleVerifyBody "gina" "111111") = createResponse 200 "OTP verified successfully"))) :=
  ⟨rfl, rfl,
    C10_parse_error_discarded ⟨400, 0, false, false, false⟩
      [⟨"gina", "111111", "oops"⟩] (sampleVerifyBody "gina" "111111")
      ⟨"gina", "111111"⟩ ⟨"gina", "111111", "oops"⟩ rfl rfl rfl (by decide) (by decide)⟩

end LambdaOTP
